import Mathlib

/-!
Shallow embedding of the nino terminal text editor (src/nino.py).

Text is modelled as `List Char` (one list per buffer line); the cursor and
scroll offsets are `Int`, matching Python's signed integers (clamp_cursor is
specified for arbitrary integer cursors).  File and terminal I/O are external
collaborators: the pure state transitions they trigger are embedded, with the
I/O outcome passed in as an explicit `Except` value.  Wall-clock fields
(status_time) are omitted: they carry no program logic.

List indexing uses `List.getD` with default `[]`.  Every theorem below that
reads a line does so at an index proved in bounds, where `getD` agrees with
Python indexing (Python's negative-index-from-the-end semantics is never
exercised on the configurations the claims quantify over).
-/

/-- Editor state, from the `@dataclass class Editor` in src/nino.py
(status_time, a wall-clock float, is omitted). -/
structure Editor where
  filename : Option (List Char) := none
  lines : List (List Char) := [[]]
  cx : Int := 0
  cy : Int := 0
  rowoff : Int := 0
  coloff : Int := 0
  dirty : Bool := false
  status_msg : List Char := []
  prompt_msg : List Char := []
deriving Repr, DecidableEq

/-- Initial editor created on startup: `Editor()` with the dataclass defaults. -/
def init_editor : Editor :=
  { filename := none, lines := [[]], cx := 0, cy := 0, rowoff := 0, coloff := 0,
    dirty := false, status_msg := [], prompt_msg := [] }

/-- Editor.set_status: stores the message (the wall-clock timestamp is not modelled). -/
def set_status (ed : Editor) (msg : List Char) : Editor :=
  { ed with status_msg := msg }

/-- Editor.set_prompt. -/
def set_prompt (ed : Editor) (msg : List Char) : Editor :=
  { ed with prompt_msg := msg }

/-- Editor.current_line: `self.lines[self.cy]`. -/
def current_line (ed : Editor) : List Char :=
  ed.lines.getD ed.cy.toNat []

/-- Editor.clamp_cursor: pushes cy into `[0, len(lines))` and then cx into
`[0, len(lines[cy])]`, exactly the four `if` statements of the source. -/
def clamp_cursor (ed : Editor) : Editor :=
  let cy1 : Int := if ed.cy < 0 then 0 else ed.cy
  let cy2 : Int := if cy1 ≥ (ed.lines.length : Int) then (ed.lines.length : Int) - 1 else cy1
  let line_len : Int := ((ed.lines.getD cy2.toNat []).length : Int)
  let cx1 : Int := if ed.cx < 0 then 0 else ed.cx
  let cx2 : Int := if cx1 > line_len then line_len else cx1
  { ed with cy := cy2, cx := cx2 }

/-- Editor.scroll_into_view: minimal-scroll viewport follow.  The text area
height used here is `max(1, screen_h - 1)` (the source comment says the last
line is excluded for the status bar). -/
def scroll_into_view (ed : Editor) (screen_h screen_w : Int) : Editor :=
  let text_h : Int := max 1 (screen_h - 1)
  let text_w : Int := max 1 screen_w
  let rowoff :=
    if ed.cy < ed.rowoff then ed.cy
    else if ed.cy ≥ ed.rowoff + text_h then ed.cy - text_h + 1
    else ed.rowoff
  let coloff :=
    if ed.cx < ed.coloff then ed.cx
    else if ed.cx ≥ ed.coloff + text_w then ed.cx - text_w + 1
    else ed.coloff
  { ed with rowoff := rowoff, coloff := coloff }

/-- Editor.insert_char: splice ch into the current line at cx, advance cx. -/
def insert_char (ed : Editor) (ch : Char) : Editor :=
  let line := ed.lines.getD ed.cy.toNat []
  { ed with
    lines := ed.lines.set ed.cy.toNat
      (line.take ed.cx.toNat ++ [ch] ++ line.drop ed.cx.toNat),
    cx := ed.cx + 1,
    dirty := true }

/-- Editor.insert_newline: split the current line at cx; the right part becomes
a new line inserted just after; cursor moves to column 0 of the next row. -/
def insert_newline (ed : Editor) : Editor :=
  let line := ed.lines.getD ed.cy.toNat []
  let left := line.take ed.cx.toNat
  let right := line.drop ed.cx.toNat
  { ed with
    lines := (ed.lines.set ed.cy.toNat left).insertIdx (ed.cy.toNat + 1) right,
    cy := ed.cy + 1,
    cx := 0,
    dirty := true }

/-- Editor.backspace: delete the char before the cursor, or join with the
previous line when at column 0 of a row below the first; no-op at (0,0). -/
def backspace (ed : Editor) : Editor :=
  if ed.cx > 0 then
    let line := ed.lines.getD ed.cy.toNat []
    { ed with
      lines := ed.lines.set ed.cy.toNat
        (line.take (ed.cx - 1).toNat ++ line.drop ed.cx.toNat),
      cx := ed.cx - 1,
      dirty := true }
  else if ed.cy > 0 then
    let prev := ed.lines.getD (ed.cy - 1).toNat []
    let cur := ed.lines.getD ed.cy.toNat []
    let new_cx : Int := (prev.length : Int)
    { ed with
      lines := (ed.lines.set (ed.cy - 1).toNat (prev ++ cur)).eraseIdx ed.cy.toNat,
      cy := ed.cy - 1,
      cx := new_cx,
      dirty := true }
  else ed

/-- Editor.delete: delete the char under the cursor, or join the next line
onto this one when at end of line; no-op at the end of the last line. -/
def delete (ed : Editor) : Editor :=
  let line := ed.lines.getD ed.cy.toNat []
  if ed.cx < (line.length : Int) then
    { ed with
      lines := ed.lines.set ed.cy.toNat
        (line.take ed.cx.toNat ++ line.drop (ed.cx.toNat + 1)),
      dirty := true }
  else if ed.cy < (ed.lines.length : Int) - 1 then
    { ed with
      lines := (ed.lines.set ed.cy.toNat
        (line ++ ed.lines.getD (ed.cy.toNat + 1) [])).eraseIdx (ed.cy.toNat + 1),
      dirty := true }
  else ed

/-- Editor.move_left. -/
def move_left (ed : Editor) : Editor :=
  if ed.cx > 0 then { ed with cx := ed.cx - 1 }
  else if ed.cy > 0 then
    { ed with cy := ed.cy - 1,
              cx := ((ed.lines.getD (ed.cy - 1).toNat []).length : Int) }
  else ed

/-- Editor.move_right. -/
def move_right (ed : Editor) : Editor :=
  let line_len : Int := ((ed.lines.getD ed.cy.toNat []).length : Int)
  if ed.cx < line_len then { ed with cx := ed.cx + 1 }
  else if ed.cy < (ed.lines.length : Int) - 1 then
    { ed with cy := ed.cy + 1, cx := 0 }
  else ed

/-- Editor.move_up. -/
def move_up (ed : Editor) : Editor :=
  if ed.cy > 0 then { ed with cy := ed.cy - 1 } else ed

/-- Editor.move_down. -/
def move_down (ed : Editor) : Editor :=
  if ed.cy < (ed.lines.length : Int) - 1 then { ed with cy := ed.cy + 1 } else ed

/-- Editor.move_home. -/
def move_home (ed : Editor) : Editor :=
  { ed with cx := 0 }

/-- Editor.move_end. -/
def move_end (ed : Editor) : Editor :=
  { ed with cx := ((ed.lines.getD ed.cy.toNat []).length : Int) }

/-- Python str.splitlines line-boundary set: \n, \r (with \r\n as a single
boundary, handled in splitlines itself), \v, \f, FS, GS, RS, NEL, LINE
SEPARATOR, PARAGRAPH SEPARATOR. -/
def isLineBreak (c : Char) : Bool :=
  c = '\n' || c = '\r' || c = '\x0b' || c = '\x0c' || c = '\x1c' ||
  c = '\x1d' || c = '\x1e' || c = '\u0085' || c = '\u2028' || c = '\u2029'

/-- Prepend a character to the first line of a split result (creating a
one-line result when there is none). -/
def consHead (c : Char) : List (List Char) → List (List Char)
  | [] => [[c]]
  | l :: ls => (c :: l) :: ls

/-- Python str.splitlines over a character list: a line ends at each boundary
character (with "\r\n" counting as one boundary); a final line is produced
only when characters remain after the last boundary, so a sole trailing
boundary adds no extra empty line and the empty string yields no lines. -/
def splitlines : List Char → List (List Char)
  | [] => []
  | [c] => if isLineBreak c then [[]] else [[c]]
  | c1 :: c2 :: rest =>
    if c1 = '\r' ∧ c2 = '\n' then [] :: splitlines rest
    else if isLineBreak c1 then [] :: splitlines (c2 :: rest)
    else consHead c1 (splitlines (c2 :: rest))

/-- Editor.load_file, successful-read path: the file content `text` has been
read in full; `handle.read().splitlines()` replaces the buffer (empty result
becomes a single empty line), the filename is recorded, cursor and scroll
reset, dirty cleared. -/
def load_file (ed : Editor) (filename : List Char) (text : List Char) : Editor :=
  let contents := splitlines text
  { ed with
    lines := if contents.isEmpty then [[]] else contents,
    filename := some filename,
    cx := 0, cy := 0, rowoff := 0, coloff := 0,
    dirty := false }

/-- Serialized buffer content written by Editor.save_file:
"\n".join(self.lines). -/
def to_text : List (List Char) → List Char
  | [] => []
  | [l] => l
  | l :: ls => l ++ '\n' :: to_text ls

/-- Editor.save_file, successful-write path with resolved target name:
records the filename and clears dirty (the written content is
to_text ed.lines). -/
def save_file_ok (ed : Editor) (target : List Char) : Editor :=
  { ed with filename := some target, dirty := false }

/-- Open action as dispatched by main (lines 320-324): on a successful read
the buffer is reloaded and a success status set; on OSError the handler runs
ed.set_status only, so every field but the status message keeps its value.
Totality of this function is the embedding of "the error never propagates
out of the except block". -/
def open_action (ed : Editor) (name : List Char) (readRes : Except (List Char) (List Char)) : Editor :=
  match readRes with
  | .ok text => set_status (load_file ed name text) ("Opened ".toList ++ name)
  | .error e => set_status ed ("Open failed: ".toList ++ e)

/-- Save action as dispatched by main (lines 302-306 and 310-314): on a
successful write Editor.save_file records the target and clears dirty, then a
success status is set; on OSError (raised by open/write before any attribute
of the editor is assigned) the handler runs ed.set_status only. -/
def save_action (ed : Editor) (target : List Char) (writeRes : Except (List Char) Unit) : Editor :=
  match writeRes with
  | .ok _ => set_status (save_file_ok ed target) ("Wrote ".toList ++ target)
  | .error e => set_status ed ("Save failed: ".toList ++ e)

/-- curses KEY_BACKSPACE code, as delivered by the terminal driver. -/
def KEY_BACKSPACE : Int := 263

/-- Whitespace stripped by Python str.strip(): the ASCII whitespace
characters.  The prompt accumulator only ever holds characters appended via
chr(ch) with 32 <= ch <= 126, so of these only ' ' is reachable there; the
remaining Unicode space characters Python would also strip are omitted. -/
def isPySpace (c : Char) : Bool :=
  c = ' ' || c = '\t' || c = '\n' || c = '\r' || c = '\x0b' || c = '\x0c'

/-- Python str.strip(): drop leading and trailing whitespace. -/
def pyStrip (s : List Char) : List Char :=
  ((s.dropWhile isPySpace).reverse.dropWhile isPySpace).reverse

/-- Loop body of prompt_input (lines 263-278), fed the key codes the terminal
driver will deliver.  Enter (10/13) returns the stripped accumulator (None
when it strips to empty) and clears the prompt line; Escape (27) returns None
and clears the prompt line; backspace keys pop the accumulator; printable
ASCII (32-126) appends; every other key leaves the accumulator unchanged.
The per-iteration refresh_screen call is not modelled here: it never touches
the accumulator or the returned value.  `none` means the key sequence ended
without a committing key, so the source loop would still be running. -/
def prompt_input_go (ed : Editor) (prompt : List Char) :
    List Int → List Char → Option (Option (List Char) × Editor)
  | [], _ => none
  | ch :: rest, buffer =>
    if ch = 10 ∨ ch = 13 then
      let text := pyStrip buffer
      some (if text.isEmpty then none else some text, set_prompt ed [])
    else if ch = 27 then
      some (none, set_prompt ed [])
    else
      let buffer' :=
        if ch = KEY_BACKSPACE ∨ ch = 127 ∨ ch = 8 then buffer.dropLast
        else if 32 ≤ ch ∧ ch ≤ 126 then buffer ++ [Char.ofNat ch.toNat]
        else buffer
      prompt_input_go (set_prompt ed (prompt ++ buffer')) prompt rest buffer'

/-- prompt_input: sets the prompt line and runs the loop with an empty
accumulator. -/
def prompt_input (ed : Editor) (prompt : List Char) (keys : List Int) :
    Option (Option (List Char) × Editor) :=
  prompt_input_go (set_prompt ed prompt) prompt keys []

/-- Save-as flow of main (lines 308-316): a non-None prompt result issues the
save action with that name; a None result only sets the cancellation status.
The second component records the filename a save was issued with (none when
no save was issued). -/
def handle_save_prompt (ed : Editor) (res : Option (List Char))
    (writeRes : Except (List Char) Unit) : Editor × Option (List Char) :=
  match res with
  | some n => (save_action ed n writeRes, some n)
  | none => (set_status ed "Save cancelled".toList, none)

/-- Open flow of main (lines 318-326), mirroring handle_save_prompt. -/
def handle_open_prompt (ed : Editor) (res : Option (List Char))
    (readRes : Except (List Char) (List Char)) : Editor × Option (List Char) :=
  match res with
  | some n => (open_action ed n readRes, some n)
  | none => (set_status ed "Open cancelled".toList, none)

/-- Content rows drawn by refresh_screen (lines 196-209): text_h =
max(1, h - 2) rows (two rows are reserved, the status bar at h-2 and the
prompt line at h-1); each row is the horizontally scrolled slice
line[coloff : coloff + max(0, w-1)] of its buffer line, and rows past the end
of the buffer show a tilde. -/
def render_content_rows (ed : Editor) (h w : Int) : List (List Char) :=
  (List.range (max 1 (h - 2)).toNat).map fun (screen_y : Nat) =>
    let file_y : Int := ed.rowoff + (screen_y : Int)
    if file_y ≥ (ed.lines.length : Int) then ['~']
    else ((ed.lines.getD file_y.toNat []).drop ed.coloff.toNat).take (max 0 (w - 1)).toNat

/-- One buffer-mutating operation from claim C1. -/
inductive EditOp where
  | insertChar (c : Char)
  | insertNewline
  | backspaceKey
  | deleteKey
deriving Repr, DecidableEq

/-- Apply one edit operation. -/
def applyOp (ed : Editor) : EditOp → Editor
  | .insertChar c => insert_char ed c
  | .insertNewline => insert_newline ed
  | .backspaceKey => backspace ed
  | .deleteKey => delete ed

/-- Apply a sequence of edit operations left to right. -/
def applyOps (ed : Editor) (ops : List EditOp) : Editor :=
  ops.foldl applyOp ed

/-- Reachable editor states: the startup state, closed under every state
transition the session performs on the editor (edit and movement keys, the
clamp and scroll pass of refresh_screen, status and prompt updates, and the
successful file actions; the failing file actions change only the status
message and are covered by setStatus). -/
inductive Reachable : Editor → Prop where
  | init : Reachable init_editor
  | insertCharR {ed} (c : Char) : Reachable ed → Reachable (insert_char ed c)
  | insertNewlineR {ed} : Reachable ed → Reachable (insert_newline ed)
  | backspaceR {ed} : Reachable ed → Reachable (backspace ed)
  | deleteR {ed} : Reachable ed → Reachable (delete ed)
  | moveLeftR {ed} : Reachable ed → Reachable (move_left ed)
  | moveRightR {ed} : Reachable ed → Reachable (move_right ed)
  | moveUpR {ed} : Reachable ed → Reachable (move_up ed)
  | moveDownR {ed} : Reachable ed → Reachable (move_down ed)
  | moveHomeR {ed} : Reachable ed → Reachable (move_home ed)
  | moveEndR {ed} : Reachable ed → Reachable (move_end ed)
  | clampR {ed} : Reachable ed → Reachable (clamp_cursor ed)
  | scrollR {ed} (h w : Int) : Reachable ed → Reachable (scroll_into_view ed h w)
  | setStatusR {ed} (m : List Char) : Reachable ed → Reachable (set_status ed m)
  | setPromptR {ed} (m : List Char) : Reachable ed → Reachable (set_prompt ed m)
  | loadFileR {ed} (n t : List Char) : Reachable ed → Reachable (load_file ed n t)
  | saveOkR {ed} (n : List Char) : Reachable ed → Reachable (save_file_ok ed n)

/-- Row invariant holding in every reachable state: the buffer is non-empty
and the cursor row is inside it.  (The cursor column may exceed the current
line length right after a vertical move, until the next clamp pass, so the
column bound is not part of this invariant.) -/
def RowInv (ed : Editor) : Prop :=
  ed.lines ≠ [] ∧ 0 ≤ ed.cy ∧ ed.cy < (ed.lines.length : Int)

/-- Full cursor validity: row inside the buffer and column within the current
line (it may equal the line length).  Established by clamp_cursor. -/
def CursorvalidInv (ed : Editor) : Prop :=
  RowInv ed ∧ 0 ≤ ed.cx ∧ ed.cx ≤ ((ed.lines.getD ed.cy.toNat []).length : Int)

/-- Bounds established by clamp_cursor on any non-empty buffer (helper shared
by several results below). -/
theorem clamp_bounds_aux (ed : Editor) (h : ed.lines ≠ []) :
    0 ≤ (clamp_cursor ed).cy ∧
    (clamp_cursor ed).cy < ((clamp_cursor ed).lines.length : Int) ∧
    0 ≤ (clamp_cursor ed).cx ∧
    (clamp_cursor ed).cx ≤
      (((clamp_cursor ed).lines.getD (clamp_cursor ed).cy.toNat []).length : Int) := by
  have hlen : 0 < ed.lines.length := List.length_pos.mpr h
  unfold clamp_cursor
  dsimp only
  split_ifs <;> refine ⟨by omega, by omega, by omega, by omega⟩

/-- Clamp_cursor does not move a cursor already in bounds (helper). -/
theorem clamp_fix_aux (ed : Editor)
    (h1 : 0 ≤ ed.cy) (h2 : ed.cy < (ed.lines.length : Int))
    (h3 : 0 ≤ ed.cx) (h4 : ed.cx ≤ ((ed.lines.getD ed.cy.toNat []).length : Int)) :
    clamp_cursor ed = ed := by
  unfold clamp_cursor
  dsimp only
  split_ifs <;> first
    | (exfalso; omega)
    | rfl

/-- C2: for every editor state whose buffer is non-empty and any integer
values of cx and cy, after clamp_cursor the cursor satisfies
0 ≤ cy < len(lines) and 0 ≤ cx ≤ len(lines[cy]). -/
theorem C2_clamp_cursor_bounds (ed : Editor) (h : ed.lines ≠ []) :
    0 ≤ (clamp_cursor ed).cy ∧
    (clamp_cursor ed).cy < ((clamp_cursor ed).lines.length : Int) ∧
    0 ≤ (clamp_cursor ed).cx ∧
    (clamp_cursor ed).cx ≤
      (((clamp_cursor ed).lines.getD (clamp_cursor ed).cy.toNat []).length : Int) :=
  clamp_bounds_aux ed h

/-- C2 witness: concrete out-of-range cursor (cx = -7, cy = 99) on a two-line
buffer. -/
theorem C2_clamp_cursor_bounds_witness :
    ({ init_editor with lines := ["ab".toList, "c".toList], cx := -7, cy := 99 } : Editor).lines ≠ [] ∧
    (0 ≤ (clamp_cursor { init_editor with lines := ["ab".toList, "c".toList], cx := -7, cy := 99 }).cy ∧
     (clamp_cursor { init_editor with lines := ["ab".toList, "c".toList], cx := -7, cy := 99 }).cy <
       (((clamp_cursor { init_editor with lines := ["ab".toList, "c".toList], cx := -7, cy := 99 }).lines.length : Int)) ∧
     0 ≤ (clamp_cursor { init_editor with lines := ["ab".toList, "c".toList], cx := -7, cy := 99 }).cx ∧
     (clamp_cursor { init_editor with lines := ["ab".toList, "c".toList], cx := -7, cy := 99 }).cx ≤
       (((clamp_cursor { init_editor with lines := ["ab".toList, "c".toList], cx := -7, cy := 99 }).lines.getD
         (clamp_cursor { init_editor with lines := ["ab".toList, "c".toList], cx := -7, cy := 99 }).cy.toNat []).length : Int)) :=
  ⟨by decide, C2_clamp_cursor_bounds _ (by decide)⟩

/-- C9: clamp_cursor is idempotent on the cursor whenever the buffer is
non-empty: a second clamp returns the same (cx, cy) as the first. -/
theorem C9_clamp_cursor_idempotent (ed : Editor) (h : ed.lines ≠ []) :
    (clamp_cursor (clamp_cursor ed)).cx = (clamp_cursor ed).cx ∧
    (clamp_cursor (clamp_cursor ed)).cy = (clamp_cursor ed).cy := by
  obtain ⟨h1, h2, h3, h4⟩ := clamp_bounds_aux ed h
  rw [clamp_fix_aux (clamp_cursor ed) h1 h2 h3 h4]
  exact ⟨rfl, rfl⟩

/-- C9 witness: idempotence at a concrete wildly out-of-range cursor. -/
theorem C9_clamp_cursor_idempotent_witness :
    ({ init_editor with lines := ["ab".toList], cx := 5, cy := -3 } : Editor).lines ≠ [] ∧
    ((clamp_cursor (clamp_cursor { init_editor with lines := ["ab".toList], cx := 5, cy := -3 })).cx =
      (clamp_cursor { init_editor with lines := ["ab".toList], cx := 5, cy := -3 }).cx ∧
     (clamp_cursor (clamp_cursor { init_editor with lines := ["ab".toList], cx := 5, cy := -3 })).cy =
      (clamp_cursor { init_editor with lines := ["ab".toList], cx := 5, cy := -3 }).cy) :=
  ⟨by decide, C9_clamp_cursor_idempotent _ (by decide)⟩

/-- C10: after scroll_into_view the cursor lies inside the scrolled window
(rowoff ≤ cy < rowoff + max(1, screen_h - 1) and
coloff ≤ cx < coloff + max(1, screen_w)), and no field other than rowoff and
coloff changes. -/
theorem C10_scroll_into_view_window (ed : Editor) (screen_h screen_w : Int)
    (hcy : 0 ≤ ed.cy) (hcx : 0 ≤ ed.cx) :
    (scroll_into_view ed screen_h screen_w).rowoff ≤ ed.cy ∧
    ed.cy < (scroll_into_view ed screen_h screen_w).rowoff + max 1 (screen_h - 1) ∧
    (scroll_into_view ed screen_h screen_w).coloff ≤ ed.cx ∧
    ed.cx < (scroll_into_view ed screen_h screen_w).coloff + max 1 screen_w ∧
    (scroll_into_view ed screen_h screen_w).lines = ed.lines ∧
    (scroll_into_view ed screen_h screen_w).cx = ed.cx ∧
    (scroll_into_view ed screen_h screen_w).cy = ed.cy ∧
    (scroll_into_view ed screen_h screen_w).filename = ed.filename ∧
    (scroll_into_view ed screen_h screen_w).dirty = ed.dirty ∧
    (scroll_into_view ed screen_h screen_w).status_msg = ed.status_msg ∧
    (scroll_into_view ed screen_h screen_w).prompt_msg = ed.prompt_msg := by
  unfold scroll_into_view
  dsimp only
  split_ifs <;>
    exact ⟨by omega, by omega, by omega, by omega, rfl, rfl, rfl, rfl, rfl, rfl, rfl⟩

/-- C10 witness: cursor (cx, cy) = (30, 50) on a small screen. -/
theorem C10_scroll_into_view_window_witness :
    (0 : Int) ≤ ({ init_editor with cy := 50, cx := 30 } : Editor).cy ∧
    (0 : Int) ≤ ({ init_editor with cy := 50, cx := 30 } : Editor).cx ∧
    ((scroll_into_view { init_editor with cy := 50, cx := 30 } 10 20).rowoff ≤ 50 ∧
     (50 : Int) < (scroll_into_view { init_editor with cy := 50, cx := 30 } 10 20).rowoff + max 1 (10 - 1) ∧
     (scroll_into_view { init_editor with cy := 50, cx := 30 } 10 20).coloff ≤ 30 ∧
     (30 : Int) < (scroll_into_view { init_editor with cy := 50, cx := 30 } 10 20).coloff + max 1 20) :=
  ⟨by decide, by decide,
    (C10_scroll_into_view_window { init_editor with cy := 50, cx := 30 } 10 20
      (by decide) (by decide)).1,
    (C10_scroll_into_view_window { init_editor with cy := 50, cx := 30 } 10 20
      (by decide) (by decide)).2.1,
    (C10_scroll_into_view_window { init_editor with cy := 50, cx := 30 } 10 20
      (by decide) (by decide)).2.2.1,
    (C10_scroll_into_view_window { init_editor with cy := 50, cx := 30 } 10 20
      (by decide) (by decide)).2.2.2.1⟩

/-- C8: backspace at (cx = 0, cy = 0) and delete at the end of the last line
are complete no-ops: the whole editor state (lines, cursor, dirty flag
included) is unchanged. -/
theorem C8_boundary_ops_noop (ed : Editor) :
    (ed.cx = 0 → ed.cy = 0 → backspace ed = ed) ∧
    (ed.cx = ((ed.lines.getD ed.cy.toNat []).length : Int) →
      ed.cy = (ed.lines.length : Int) - 1 → delete ed = ed) := by
  constructor
  · intro hx hy
    unfold backspace
    rw [hx, hy]
    rfl
  · intro hx hy
    unfold delete
    dsimp only
    rw [if_neg (by omega), if_neg (by omega)]

/-- C8 witness: a concrete one-line buffer with dirty = false stays entirely
unchanged (dirty stays false) under both boundary operations. -/
theorem C8_boundary_ops_noop_witness :
    backspace { init_editor with lines := ["ab".toList], cx := 0, cy := 0 } =
      { init_editor with lines := ["ab".toList], cx := 0, cy := 0 } ∧
    delete { init_editor with lines := ["ab".toList], cx := 2, cy := 0 } =
      { init_editor with lines := ["ab".toList], cx := 2, cy := 0 } :=
  ⟨(C8_boundary_ops_noop _).1 (by decide) (by decide),
   (C8_boundary_ops_noop _).2 (by decide) (by decide)⟩

/-- Writing back the element already stored at an in-range index leaves the
list unchanged (helper). -/
theorem set_getD_self_aux {α : Type} (l : List α) (n : Nat) (d : α) (h : n < l.length) :
    l.set n (l.getD n d) = l := by
  induction l generalizing n with
  | nil => simp at h
  | cons a t ih =>
    cases n with
    | zero => simp
    | succ m =>
      simp only [List.getD_cons_succ, List.set_cons_succ, List.cons.injEq, true_and]
      exact ih m (by simpa using h)

/-- C6: with a valid cursor, insert_char c followed by backspace restores the
exact prior line sequence and the prior cursor position. -/
theorem C6_backspace_undoes_insert (ed : Editor) (c : Char)
    (hcy0 : 0 ≤ ed.cy) (hcy1 : ed.cy < (ed.lines.length : Int))
    (hcx0 : 0 ≤ ed.cx) (hcx1 : ed.cx ≤ ((ed.lines.getD ed.cy.toNat []).length : Int)) :
    (backspace (insert_char ed c)).lines = ed.lines ∧
    (backspace (insert_char ed c)).cx = ed.cx ∧
    (backspace (insert_char ed c)).cy = ed.cy := by
  have hn : ed.cy.toNat < ed.lines.length := by omega
  have hk : ed.cx.toNat ≤ (ed.lines.getD ed.cy.toNat []).length := by omega
  set n := ed.cy.toNat with hndef
  set line := ed.lines.getD n [] with hline
  have hpos : ed.cx + 1 > 0 := by omega
  unfold insert_char backspace
  dsimp only
  rw [if_pos hpos]
  have hcy' : (({ ed with
      lines := ed.lines.set n (line.take ed.cx.toNat ++ [c] ++ line.drop ed.cx.toNat),
      cx := ed.cx + 1, dirty := true } : Editor)).cy.toNat = n := rfl
  refine ⟨?_, by dsimp only; omega, rfl⟩
  dsimp only
  have hset : (ed.lines.set n (line.take ed.cx.toNat ++ [c] ++ line.drop ed.cx.toNat)).getD n []
      = line.take ed.cx.toNat ++ [c] ++ line.drop ed.cx.toNat := by
    rw [List.getD_eq_getElem?_getD, List.getElem?_set_self (by simpa using hn)]
    rfl
  rw [hset]
  have h1 : (ed.cx + 1 - 1).toNat = ed.cx.toNat := by omega
  have h2 : (ed.cx + 1).toNat = ed.cx.toNat + 1 := by omega
  rw [h1, h2]
  have htake : (line.take ed.cx.toNat ++ [c] ++ line.drop ed.cx.toNat).take ed.cx.toNat
      = line.take ed.cx.toNat := by
    rw [List.append_assoc, List.take_append_of_le_length (by simp; omega), List.take_take]
    simp
  have hdrop : (line.take ed.cx.toNat ++ [c] ++ line.drop ed.cx.toNat).drop (ed.cx.toNat + 1)
      = line.drop ed.cx.toNat := by
    rw [List.drop_left']
    simp
    omega
  rw [htake, hdrop, List.set_set, List.take_append_drop]
  exact set_getD_self_aux ed.lines n [] hn

/-- C6 witness: inserting a character mid-line of a concrete buffer and
backspacing restores it. -/
theorem C6_backspace_undoes_insert_witness :
    ((backspace (insert_char { init_editor with lines := ["hello".toList], cx := 2, cy := 0 } 'Z')).lines
      = ["hello".toList] ∧
     (backspace (insert_char { init_editor with lines := ["hello".toList], cx := 2, cy := 0 } 'Z')).cx = 2 ∧
     (backspace (insert_char { init_editor with lines := ["hello".toList], cx := 2, cy := 0 } 'Z')).cy = 0) :=
  C6_backspace_undoes_insert { init_editor with lines := ["hello".toList], cx := 2, cy := 0 } 'Z'
    (by decide) (by decide) (by decide) (by decide)




theorem rowInv_insert_char (ed : Editor) (c : Char) (h : RowInv ed) :
    RowInv (insert_char ed c) := by
  obtain ⟨h1, h2, h3⟩ := h
  unfold RowInv insert_char
  dsimp only
  rw [List.length_set]
  refine ⟨?_, h2, h3⟩
  apply List.length_pos.mp
  rw [List.length_set]
  omega

theorem rowInv_insert_newline (ed : Editor) (h : RowInv ed) :
    RowInv (insert_newline ed) := by
  obtain ⟨h1, h2, h3⟩ := h
  unfold RowInv insert_newline
  dsimp only
  have hlen : ((ed.lines.set ed.cy.toNat
      ((ed.lines.getD ed.cy.toNat []).take ed.cx.toNat)).insertIdx (ed.cy.toNat + 1)
      ((ed.lines.getD ed.cy.toNat []).drop ed.cx.toNat)).length = ed.lines.length + 1 := by
    have hle : ed.cy.toNat + 1 ≤ (ed.lines.set ed.cy.toNat
        ((ed.lines.getD ed.cy.toNat []).take ed.cx.toNat)).length := by
      rw [List.length_set]; omega
    rw [List.length_insertIdx _ _ hle, List.length_set]
  rw [hlen]
  refine ⟨?_, by omega, by push_cast; omega⟩
  apply List.length_pos.mp
  rw [hlen]
  omega

theorem rowInv_backspace (ed : Editor) (h : RowInv ed) :
    RowInv (backspace ed) := by
  obtain ⟨h1, h2, h3⟩ := h
  unfold RowInv backspace
  dsimp only
  split_ifs with hx hy
  · dsimp only
    rw [List.length_set]
    refine ⟨?_, h2, h3⟩
    apply List.length_pos.mp
    rw [List.length_set]
    omega
  · dsimp only
    have hcy : ed.cy.toNat < ((ed.lines.set (ed.cy - 1).toNat
        (ed.lines.getD (ed.cy - 1).toNat [] ++ ed.lines.getD ed.cy.toNat [])).length) := by
      rw [List.length_set]; omega
    have hlen : ((ed.lines.set (ed.cy - 1).toNat
        (ed.lines.getD (ed.cy - 1).toNat [] ++ ed.lines.getD ed.cy.toNat [])).eraseIdx
        ed.cy.toNat).length = ed.lines.length - 1 := by
      rw [List.length_eraseIdx_of_lt hcy, List.length_set]
    rw [hlen]
    refine ⟨?_, by omega, by omega⟩
    apply List.length_pos.mp
    rw [hlen]
    omega
  · exact ⟨h1, h2, h3⟩

theorem rowInv_delete (ed : Editor) (h : RowInv ed) :
    RowInv (delete ed) := by
  obtain ⟨h1, h2, h3⟩ := h
  unfold RowInv delete
  dsimp only
  split_ifs with hx hy
  · dsimp only
    rw [List.length_set]
    refine ⟨?_, h2, h3⟩
    apply List.length_pos.mp
    rw [List.length_set]
    omega
  · dsimp only
    have hcy : ed.cy.toNat + 1 < ((ed.lines.set ed.cy.toNat
        (ed.lines.getD ed.cy.toNat [] ++ ed.lines.getD (ed.cy.toNat + 1) [])).length) := by
      rw [List.length_set]; omega
    have hlen : ((ed.lines.set ed.cy.toNat
        (ed.lines.getD ed.cy.toNat [] ++ ed.lines.getD (ed.cy.toNat + 1) [])).eraseIdx
        (ed.cy.toNat + 1)).length = ed.lines.length - 1 := by
      rw [List.length_eraseIdx_of_lt hcy, List.length_set]
    rw [hlen]
    refine ⟨?_, h2, by omega⟩
    apply List.length_pos.mp
    rw [hlen]
    omega
  · exact ⟨h1, h2, h3⟩

theorem rowInv_moves (ed : Editor) (h : RowInv ed) :
    RowInv (move_left ed) ∧ RowInv (move_right ed) ∧ RowInv (move_up ed) ∧
    RowInv (move_down ed) ∧ RowInv (move_home ed) ∧ RowInv (move_end ed) := by
  obtain ⟨h1, h2, h3⟩ := h
  refine ⟨?_, ?_, ?_, ?_, ⟨h1, h2, h3⟩, ⟨h1, h2, h3⟩⟩ <;>
    · unfold RowInv
      simp only [move_left, move_right, move_up, move_down]
      split_ifs <;> refine ⟨h1, ?_, ?_⟩ <;> dsimp only <;> omega

theorem rowInv_clamp (ed : Editor) (h : RowInv ed) :
    RowInv (clamp_cursor ed) := by
  obtain ⟨h1, h2, h3⟩ := h
  obtain ⟨g1, g2, _, _⟩ := clamp_bounds_aux ed h1
  exact ⟨h1, g1, g2⟩

theorem rowInv_scroll (ed : Editor) (sh sw : Int) (h : RowInv ed) :
    RowInv (scroll_into_view ed sh sw) := by
  obtain ⟨h1, h2, h3⟩ := h
  unfold RowInv scroll_into_view
  dsimp only
  exact ⟨h1, h2, h3⟩

theorem rowInv_load_file (ed : Editor) (n t : List Char) :
    RowInv (load_file ed n t) := by
  unfold RowInv load_file
  dsimp only
  constructor
  · split_ifs with he
    · simp
    · simpa [List.isEmpty_iff] using he
  · constructor
    · omega
    · split_ifs with he
      · simp
      · have : splitlines t ≠ [] := by simpa [List.isEmpty_iff] using he
        have : 0 < (splitlines t).length := List.length_pos.mpr this
        omega

theorem rowInv_aux_frame (ed : Editor) (n m : List Char) (h : RowInv ed) :
    RowInv (set_status ed m) ∧ RowInv (set_prompt ed m) ∧ RowInv (save_file_ok ed n) :=
  ⟨h, h, h⟩

/-- Every reachable editor state satisfies RowInv (helper). -/
theorem reachable_rowInv (ed : Editor) (h : Reachable ed) : RowInv ed := by
  induction h with
  | init => exact ⟨by simp [init_editor], by simp [init_editor], by simp [init_editor]⟩
  | insertCharR c _ ih => exact rowInv_insert_char _ c ih
  | insertNewlineR _ ih => exact rowInv_insert_newline _ ih
  | backspaceR _ ih => exact rowInv_backspace _ ih
  | deleteR _ ih => exact rowInv_delete _ ih
  | moveLeftR _ ih => exact (rowInv_moves _ ih).1
  | moveRightR _ ih => exact (rowInv_moves _ ih).2.1
  | moveUpR _ ih => exact (rowInv_moves _ ih).2.2.1
  | moveDownR _ ih => exact (rowInv_moves _ ih).2.2.2.1
  | moveHomeR _ ih => exact (rowInv_moves _ ih).2.2.2.2.1
  | moveEndR _ ih => exact (rowInv_moves _ ih).2.2.2.2.2
  | clampR _ ih => exact rowInv_clamp _ ih
  | scrollR hh ww _ ih => exact rowInv_scroll _ hh ww ih
  | setStatusR m _ ih => exact (rowInv_aux_frame _ [] m ih).1
  | setPromptR m _ ih => exact (rowInv_aux_frame _ [] m ih).2.1
  | loadFileR n t _ _ => exact rowInv_load_file _ n t
  | saveOkR n _ ih => exact (rowInv_aux_frame _ n [] ih).2.2

/-- RowInv is preserved by any sequence of the four edit operations (helper). -/
theorem rowInv_applyOps (ed : Editor) (h : RowInv ed) (ops : List EditOp) :
    RowInv (applyOps ed ops) := by
  induction ops generalizing ed with
  | nil => exact h
  | cons op rest ih =>
    have hstep : RowInv (applyOp ed op) := by
      cases op with
      | insertChar c => exact rowInv_insert_char ed c h
      | insertNewline => exact rowInv_insert_newline ed h
      | backspaceKey => exact rowInv_backspace ed h
      | deleteKey => exact rowInv_delete ed h
    exact ih (applyOp ed op) hstep

/-- C1: from any reachable editor state, any sequence of insert_char,
insert_newline, backspace and delete operations leaves the buffer non-empty
(every prefix of the sequence is itself such a sequence, so the bound holds
after each operation; backspace and delete are proved to shrink the buffer
only from a length of at least two). -/
theorem C1_lines_never_empty (ed : Editor) (hre : Reachable ed) (ops : List EditOp) :
    1 ≤ (applyOps ed ops).lines.length := by
  have h := rowInv_applyOps ed (reachable_rowInv ed hre) ops
  exact List.length_pos.mpr h.1

/-- C1 witness: a concrete mixed sequence applied to the startup state. -/
theorem C1_lines_never_empty_witness :
    1 ≤ (applyOps init_editor
      [EditOp.backspaceKey, EditOp.deleteKey, EditOp.insertChar 'a',
       EditOp.insertNewline, EditOp.backspaceKey, EditOp.backspaceKey,
       EditOp.backspaceKey, EditOp.deleteKey]).lines.length :=
  C1_lines_never_empty init_editor Reachable.init _

/-- C5: a failing filesystem call is absorbed by the except handlers in main.
On open-failure every field of the editor except the status message keeps its
value; on save-failure the filename and dirty flag (and in fact everything
but the status message) keep their values; both handlers are total functions
here, the embedding of the fact that the OSError never escapes the handler
and so never crashes the session. -/
theorem C5_io_failure_preserves_state (ed : Editor) (n e : List Char) :
    (open_action ed n (.error e)).lines = ed.lines ∧
    (open_action ed n (.error e)).cx = ed.cx ∧
    (open_action ed n (.error e)).cy = ed.cy ∧
    (open_action ed n (.error e)).rowoff = ed.rowoff ∧
    (open_action ed n (.error e)).coloff = ed.coloff ∧
    (open_action ed n (.error e)).filename = ed.filename ∧
    (open_action ed n (.error e)).dirty = ed.dirty ∧
    (open_action ed n (.error e)).prompt_msg = ed.prompt_msg ∧
    (open_action ed n (.error e)).status_msg = "Open failed: ".toList ++ e ∧
    (save_action ed n (.error e)).filename = ed.filename ∧
    (save_action ed n (.error e)).dirty = ed.dirty ∧
    (save_action ed n (.error e)).lines = ed.lines ∧
    (save_action ed n (.error e)).cx = ed.cx ∧
    (save_action ed n (.error e)).cy = ed.cy ∧
    (save_action ed n (.error e)).status_msg = "Save failed: ".toList ++ e :=
  ⟨rfl, rfl, rfl, rfl, rfl, rfl, rfl, rfl, rfl, rfl, rfl, rfl, rfl, rfl, rfl⟩

/-- C7: in prompt mode, Enter commits the whitespace-stripped accumulator
(clearing the prompt line, i.e. returning to editing) and a non-empty result
makes main dispatch the pending save or open action with it as filename; an
empty stripped result or Escape yields None, upon which main sets only the
cancellation status and issues no file action. -/
theorem C7_prompt_commit (ed : Editor) (prompt accum : List Char) (rest : List Int)
    (wres : Except (List Char) Unit) (rres : Except (List Char) (List Char)) :
    (pyStrip accum ≠ [] →
      prompt_input_go ed prompt (10 :: rest) accum =
        some (some (pyStrip accum), set_prompt ed [])) ∧
    (pyStrip accum = [] →
      prompt_input_go ed prompt (10 :: rest) accum = some (none, set_prompt ed [])) ∧
    prompt_input_go ed prompt (27 :: rest) accum = some (none, set_prompt ed []) ∧
    (set_prompt ed []).prompt_msg = [] ∧
    (∀ nm, handle_save_prompt ed (some nm) wres = (save_action ed nm wres, some nm)) ∧
    handle_save_prompt ed none wres = (set_status ed "Save cancelled".toList, none) ∧
    (∀ nm, handle_open_prompt ed (some nm) rres = (open_action ed nm rres, some nm)) ∧
    handle_open_prompt ed none rres = (set_status ed "Open cancelled".toList, none) := by
  refine ⟨?_, ?_, ?_, rfl, fun nm => rfl, rfl, fun nm => rfl, rfl⟩
  · intro hne
    unfold prompt_input_go
    rw [if_pos (Or.inl rfl)]
    dsimp only
    rw [if_neg (by simp [List.isEmpty_iff, hne])]
  · intro he
    unfold prompt_input_go
    rw [if_pos (Or.inl rfl)]
    dsimp only
    rw [if_pos (by simp [List.isEmpty_iff, he])]
  · unfold prompt_input_go
    rw [if_neg (by omega), if_pos rfl]

/-- C7 witness: the spec scenario, accumulator "out.txt" plus Enter commits a
save with that name; a blank accumulator plus Enter cancels. -/
theorem C7_prompt_commit_witness :
    (pyStrip "out.txt".toList ≠ [] ∧
      prompt_input_go init_editor "Save as: ".toList (10 :: []) "out.txt".toList =
        some (some (pyStrip "out.txt".toList), set_prompt init_editor [])) ∧
    (pyStrip " ".toList = [] ∧
      prompt_input_go init_editor "Save as: ".toList (10 :: []) " ".toList =
        some (none, set_prompt init_editor [])) :=
  ⟨⟨by decide,
    (C7_prompt_commit init_editor "Save as: ".toList "out.txt".toList [] (.ok ())
      (.error [])).1 (by decide)⟩,
   ⟨by decide,
    (C7_prompt_commit init_editor "Save as: ".toList " ".toList [] (.ok ())
      (.error [])).2.1 (by decide)⟩⟩

theorem to_text_consHead (c : Char) (L : List (List Char)) (h : L ≠ []) :
    to_text (consHead c L) = c :: to_text L := by
  match L with
  | [l] => rfl
  | l :: l2 :: ls => rfl

theorem to_text_splitlines_aux (s : List Char) :
    (∀ c ∈ s, isLineBreak c = true → c = '\n') →
    s.getLast? ≠ some '\n' →
    s ≠ [] → (splitlines s ≠ [] ∧ to_text (splitlines s) = s) := by
  induction s using splitlines.induct with
  | case1 =>
    intro _ _ h
    exact absurd rfl h
  | case2 c hbk =>
    intro hb hl _
    exfalso
    have hc := hb c (by simp) hbk
    subst hc
    exact hl (by simp)
  | case3 c hbk =>
    intro hb hl _
    rw [splitlines, if_neg hbk]
    exact ⟨by simp, rfl⟩
  | case4 c1 c2 rest hrn ih =>
    intro hb hl _
    exfalso
    obtain ⟨h1, h2⟩ := hrn
    subst h1
    have := hb '\r' (by simp) (by decide)
    exact absurd this (by decide)
  | case5 c1 c2 rest hrn hbk ih =>
    intro hb hl _
    have hc1 : c1 = '\n' := hb c1 (by simp) hbk
    have hb' : ∀ c ∈ c2 :: rest, isLineBreak c = true → c = '\n' := by
      intro c hc hk
      refine hb c ?_ hk
      simp only [List.mem_cons] at hc ⊢
      tauto
    have hl' : (c2 :: rest).getLast? ≠ some '\n' := by
      rwa [show (c1 :: c2 :: rest).getLast? = (c2 :: rest).getLast? from rfl] at hl
    obtain ⟨hne, heq⟩ := ih hb' hl' (by simp)
    rw [splitlines, if_neg hrn, if_pos hbk]
    constructor
    · simp
    · obtain ⟨l, ls, hls⟩ := List.exists_cons_of_ne_nil hne
      rw [hls] at heq ⊢
      show ([] : List Char) ++ '\n' :: to_text (l :: ls) = c1 :: c2 :: rest
      rw [List.nil_append, heq, hc1]
  | case6 c1 c2 rest hrn hbk ih =>
    intro hb hl _
    have hb' : ∀ c ∈ c2 :: rest, isLineBreak c = true → c = '\n' := by
      intro c hc hk
      refine hb c ?_ hk
      simp only [List.mem_cons] at hc ⊢
      tauto
    have hl' : (c2 :: rest).getLast? ≠ some '\n' := by
      rwa [show (c1 :: c2 :: rest).getLast? = (c2 :: rest).getLast? from rfl] at hl
    obtain ⟨hne, heq⟩ := ih hb' hl' (by simp)
    rw [splitlines, if_neg hrn, if_neg hbk]
    constructor
    · obtain ⟨l, ls, hls⟩ := List.exists_cons_of_ne_nil hne
      rw [hls]
      cases ls <;> simp [consHead]
    · rw [to_text_consHead c1 _ hne, heq]

/-- C4 counterexample: "a\rb" has no trailing newline, yet load followed by
serialize returns "a\nb": Editor.load_file splits with Python str.splitlines,
which also treats '\r' (and \v, \f, \x1c-\x1e, \x85, U+2028, U+2029) as a
line boundary, while "\n".join only restores '\n'. -/
theorem C4_roundtrip_counterexample :
    "a\rb".toList.getLast? ≠ some '\n' ∧
    to_text (load_file init_editor "f".toList "a\rb".toList).lines ≠ "a\rb".toList := by
  decide

/-- C4 amended: for every text whose only line-boundary characters are '\n'
and which has no trailing newline, loading the buffer from the text and
serializing with the save path reproduces the text exactly (the empty text
maps to the single empty line and serializes back to the empty text). -/
theorem C4_roundtrip_amended (ed : Editor) (nm text : List Char)
    (hb : ∀ c ∈ text, isLineBreak c = true → c = '\n')
    (hl : text.getLast? ≠ some '\n') :
    to_text (load_file ed nm text).lines = text := by
  unfold load_file
  dsimp only
  by_cases he : text = []
  · subst he
    rfl
  · obtain ⟨hne, heq⟩ := to_text_splitlines_aux text hb hl he
    rw [if_neg (by simpa [List.isEmpty_iff] using hne)]
    exact heq

/-- C4 witness: the two-line text "a\nb" round-trips. -/
theorem C4_roundtrip_amended_witness :
    (∀ c ∈ "a\nb".toList, isLineBreak c = true → c = '\n') ∧
    "a\nb".toList.getLast? ≠ some '\n' ∧
    to_text (load_file init_editor "f".toList "a\nb".toList).lines = "a\nb".toList :=
  ⟨by decide, by decide,
   C4_roundtrip_amended init_editor "f".toList "a\nb".toList (by decide) (by decide)⟩

/-- C3 counterexample: with screen height 10 and cy = 50, scroll_into_view
sets rowoff = 42 = 50 - 9 + 1 using text_h = max(1, 10 - 1) = 9, while
refresh_screen actually renders max(1, 10 - 2) = 8 content rows; 42 is not
50 - 8 + 1, so the text_height used for scrolling is NOT the number of
content rows actually rendered. -/
theorem C3_viewport_counterexample :
    (scroll_into_view { init_editor with cy := 50 } 10 20).rowoff = 42 ∧
    (render_content_rows { init_editor with cy := 50 } 10 20).length = 8 ∧
    (42 : Int) ≠ 50 - 8 + 1 := by
  refine ⟨by decide, ?_, by decide⟩
  simp only [render_content_rows, List.length_map, List.length_range]
  decide

/-- C3 amended: scroll_into_view always subtracts one reserved row
(text_h = max(1, screen_h - 1)) and applies the minimal-scroll rule
rowoff = cy - text_h + 1 when cy ≥ rowoff + text_h, while refresh_screen
reserves two rows (status bar and prompt line) and renders
max(1, screen_h - 2) content rows, so for screen_h ≥ 3 the scrolling
text height exceeds the rendered content rows by one. -/
theorem C3_viewport_amended (ed : Editor) (screen_h screen_w : Int)
    (hcy : ed.rowoff + max 1 (screen_h - 1) ≤ ed.cy) :
    (scroll_into_view ed screen_h screen_w).rowoff = ed.cy - max 1 (screen_h - 1) + 1 ∧
    ((render_content_rows ed screen_h screen_w).length : Int) = max 1 (screen_h - 2) ∧
    (3 ≤ screen_h → max 1 (screen_h - 1) = max 1 (screen_h - 2) + 1) := by
  refine ⟨?_, ?_, by omega⟩
  · unfold scroll_into_view
    dsimp only
    rw [if_neg (by omega), if_pos (by omega)]
  · simp only [render_content_rows, List.length_map, List.length_range]
    omega

/-- C3 witness: screen (10, 20), cy = 50, rowoff = 0 gives rowoff = 42 and
8 rendered content rows. -/
theorem C3_viewport_amended_witness :
    ({ init_editor with cy := 50 } : Editor).rowoff + max 1 ((10 : Int) - 1) ≤ 50 ∧
    ((scroll_into_view { init_editor with cy := 50 } 10 20).rowoff = 50 - max 1 ((10 : Int) - 1) + 1 ∧
     ((render_content_rows { init_editor with cy := 50 } 10 20).length : Int) = max 1 ((10 : Int) - 2) ∧
     ((3 : Int) ≤ 10 → max 1 ((10 : Int) - 1) = max 1 ((10 : Int) - 2) + 1)) :=
  ⟨by decide, C3_viewport_amended { init_editor with cy := 50 } 10 20 (by decide)⟩
